import Mathlib

/-!
Shallow embedding of `src/scripts/bible_keyring.py` (Bible keyring 3D model
generator) together with proofs of the specification claims about it.

Modelling conventions:
- All linear dimensions are exact rationals (`ℚ`); the Python floats in the
  script are all exactly representable decimals.
- A Blender mesh object is a `Mesh`: a name plus explicit vertex and face
  lists.  Cylinder primitives, whose vertex coordinates involve sine/cosine,
  are kept as parameter records (`Cylinder`): the claims about them concern
  the construction parameters (radius, depth, segments, center), not the
  trigonometric coordinates.
- The Blender boolean-modifier solver is external to the script; it is
  modelled as a parameter `solver : Mesh → Mesh → Option Mesh` where `none`
  represents the `modifier_apply` call raising an exception (in which case
  Blender leaves the mesh untouched and the script removes the modifier).
- Module-level configuration constants of the script become both Lean
  constants (with the configured values) and parameters of the builder
  functions, so that behaviour at other parameter values is statable.
-/

namespace BibleKeyring

/-- 3D point/vector with exact rational coordinates. -/
structure Vec3 where
  x : ℚ
  y : ℚ
  z : ℚ
deriving DecidableEq, Repr

/-- Mesh object (a Solid of the data model): name, vertex positions, faces
as lists of vertex indices. -/
structure Mesh where
  name  : String
  verts : List Vec3
  faces : List (List ℕ)
deriving DecidableEq, Repr, Inhabited

/-! Configuration constants of the script (lines 22-44 of the source). -/

/-- Source: `BOOK_WIDTH = 30.0` (mm, X). -/
def BOOK_WIDTH : ℚ := 30

/-- Source: `BOOK_HEIGHT = 38.0` (mm, Z). -/
def BOOK_HEIGHT : ℚ := 38

/-- Source: `BOOK_DEPTH = 10.0` (mm, Y). -/
def BOOK_DEPTH : ℚ := 10

/-- Source: `COVER_THICKNESS = 1.5` (mm). -/
def COVER_THICKNESS : ℚ := 1.5

/-- Source: `LOOP_OUTER_RADIUS = 4.0` (mm). -/
def LOOP_OUTER_RADIUS : ℚ := 4

/-- Source: `LOOP_INNER_RADIUS = 2.5` (mm). -/
def LOOP_INNER_RADIUS : ℚ := 2.5

/-- Source: `LOOP_THICKNESS = 3.0` (mm). -/
def LOOP_THICKNESS : ℚ := 3

/-- Source: `TEXT_SIZE = 5.0` (mm). -/
def TEXT_SIZE : ℚ := 5

/-- Source: `TEXT_EXTRUDE = 0.8` (mm). -/
def TEXT_EXTRUDE : ℚ := 0.8

/-- Source: `PAGE_LINE_COUNT = 12`. -/
def PAGE_LINE_COUNT : ℕ := 12

/-- Source: `PAGE_LINE_DEPTH = 0.3` (mm). -/
def PAGE_LINE_DEPTH : ℚ := 0.3

/-- Source: `COLLECTION_NAME = "BibleKeyring"`. -/
def COLLECTION_NAME : String := "BibleKeyring"

/-! Box primitive.  `bpy.ops.mesh.primitive_cube_add(size=1, location=c)`
followed by setting `scale = (sx, sy, sz)` and `transform_apply(scale=True)`
yields an axis-aligned box centered at `c` with full extents `(sx, sy, sz)`. -/

/-- Vertex list of an axis-aligned box with center `(cx, cy, cz)` and full
extents `(sx, sy, sz)` (Blender cube vertex order: Z fastest, then Y, X). -/
def cubeVerts (cx cy cz sx sy sz : ℚ) : List Vec3 :=
  [ ⟨cx - sx/2, cy - sy/2, cz - sz/2⟩
  , ⟨cx - sx/2, cy - sy/2, cz + sz/2⟩
  , ⟨cx - sx/2, cy + sy/2, cz - sz/2⟩
  , ⟨cx - sx/2, cy + sy/2, cz + sz/2⟩
  , ⟨cx + sx/2, cy - sy/2, cz - sz/2⟩
  , ⟨cx + sx/2, cy - sy/2, cz + sz/2⟩
  , ⟨cx + sx/2, cy + sy/2, cz - sz/2⟩
  , ⟨cx + sx/2, cy + sy/2, cz + sz/2⟩ ]

/-- Face list of the Blender unit cube (six quads over `cubeVerts`). -/
def cubeFaces : List (List ℕ) :=
  [[0, 1, 3, 2], [2, 3, 7, 6], [6, 7, 5, 4], [4, 5, 1, 0], [2, 6, 4, 0], [7, 3, 1, 5]]

/-- Embeds `create_book_body` (source lines 70-91): a size-1 cube at
`(BOOK_WIDTH / 2, 0, 0)`, scaled to `(BOOK_WIDTH, BOOK_DEPTH, BOOK_HEIGHT)`
with the scale applied, named `"BookBody"`.  The book dimensions (module
constants in the script) are parameters `w d h` here. -/
def create_book_body (w d h : ℚ) : Mesh :=
  { name := "BookBody"
  , verts := cubeVerts (w / 2) 0 0 w d h
  , faces := cubeFaces }

/-- Cylinder primitive kept as its construction parameters
(`bpy.ops.mesh.primitive_cylinder_add`): radius, depth (height along the
cylinder axis Z), number of circumferential segments, and center. -/
structure Cylinder where
  radius   : ℚ
  depth    : ℚ
  segments : ℕ
  center   : Vec3
deriving DecidableEq, Repr

/-- Embeds `create_spine` (source lines 94-121): one cylinder with
`radius = BOOK_DEPTH / 2`, `depth = BOOK_HEIGHT`, `vertices = 32`, at the
origin; the two rotation assignments cancel (the final euler is `(0,0,0)`),
so the applied rotation is the identity.  The book dimensions are
parameters `d h` here. -/
def create_spine (d h : ℚ) : Cylinder :=
  { radius := d / 2, depth := h, segments := 32, center := ⟨0, 0, 0⟩ }

/-- Boolean modifier mode (`bool_mod.operation` in the script). -/
inductive BoolMode
  | union
  | difference
deriving DecidableEq, Repr

/-- Record of what `create_carabiner_loop` builds: the outer cylinder, the
inner (hole) cylinder, and the sequence of boolean modifier operations
applied to the outer cylinder with the inner one as operand. -/
structure LoopBuild where
  outer : Cylinder
  inner : Cylinder
  ops   : List BoolMode
deriving DecidableEq, Repr

/-- Embeds `create_carabiner_loop` (source lines 124-172): an outer cylinder
(radius `LOOP_OUTER_RADIUS`, depth `LOOP_THICKNESS`) and an inner cylinder
(radius `LOOP_INNER_RADIUS`, depth `LOOP_THICKNESS + 2`), both with 32
segments and centered at `(0, 0, BOOK_HEIGHT / 2 + LOOP_OUTER_RADIUS - 1)`,
then exactly one `DIFFERENCE` boolean modifier applied to the outer cylinder
with the inner cylinder as object, after which the inner cylinder is
removed.  The loop constants are parameters `rOut rIn t` and the book height
is `h` here. -/
def create_carabiner_loop (rOut rIn t h : ℚ) : LoopBuild :=
  let cz := h / 2 + rOut - 1
  { outer := { radius := rOut, depth := t, segments := 32, center := ⟨0, 0, cz⟩ }
  , inner := { radius := rIn, depth := t + 2, segments := 32, center := ⟨0, 0, cz⟩ }
  , ops := [BoolMode.difference] }

/-! Text-solid builder. -/

/-- Embeds the per-line placement of `create_embossed_text` (source lines
175-229): for the line list `lines` it returns, in order, each line's text
together with the location at which its text object is added, namely
`(w / 2, -d / 2 - extrude / 2 + 0.01, start_z - i * line_spacing)` with
`line_spacing = size * 1.6`, `total_height = (len(lines) - 1) * line_spacing`
and `start_z = total_height / 2`.  The glyph-to-mesh conversion and the
final `join` are delegated to Blender and not modelled; the claims concern
the layout positions. -/
def create_embossed_text (lines : List String) (size extrude w d : ℚ) :
    List (String × Vec3) :=
  let lineSpacing := size * 1.6
  let totalHeight := ((lines.length : ℚ) - 1) * lineSpacing
  let startZ := totalHeight / 2
  lines.enum.map (fun p =>
    (p.2, ⟨w / 2, -d / 2 - extrude / 2 + 0.01, startZ - (p.1 : ℚ) * lineSpacing⟩))

/-! Repeater (page lines). -/

/-- Axis-aligned slab produced by `primitive_cube_add(size=1)` followed by a
scale: its center location and its full extents. -/
structure Slab where
  center  : Vec3
  extents : Vec3
deriving DecidableEq, Repr

/-- Embeds one iteration of the loop in `create_page_lines` (source lines
244-260): the i-th (0-based) page-line cube is placed at
`(BOOK_WIDTH + 0.01, y_pos, 0)` with
`y_pos = -BOOK_DEPTH / 2 + COVER_THICKNESS + (i + 1) * line_spacing`,
`line_spacing = (BOOK_DEPTH - 2 * COVER_THICKNESS) / (PAGE_LINE_COUNT + 1)`,
and scaled to extents `(PAGE_LINE_DEPTH, 0.15, BOOK_HEIGHT * 0.9)`.  The
script constants are parameters `w d cover bh pld count` here. -/
def pageSlab (w d cover bh pld : ℚ) (count : ℕ) (i : ℕ) : Slab :=
  let innerDepth := d - 2 * cover
  let lineSpacing := innerDepth / ((count : ℚ) + 1)
  let yPos := -d / 2 + cover + ((i : ℚ) + 1) * lineSpacing
  { center := ⟨w + 0.01, yPos, 0⟩
  , extents := ⟨pld, 0.15, bh * 0.9⟩ }

/-- Mesh of a `Slab` (the cube object the script actually links into the
collection), named like the script names it. -/
def slabMesh (i : ℕ) (s : Slab) : Mesh :=
  { name := "PageLine_" ++ toString i
  , verts := cubeVerts s.center.x s.center.y s.center.z s.extents.x s.extents.y s.extents.z
  , faces := cubeFaces }

/-- Concatenates a mesh into an accumulating mesh, reindexing the faces of
the appended mesh (the effect of `bpy.ops.object.join` on vertex/face data;
the joined object keeps the active object's name). -/
def joinInto (acc m : Mesh) : Mesh :=
  { name := acc.name
  , verts := acc.verts ++ m.verts
  , faces := acc.faces ++ m.faces.map (fun f => f.map (fun k => k + acc.verts.length)) }

/-- Embeds `create_page_lines` (source lines 232-272): builds `count` page
slabs, joins them into the first one, renames the result `"PageLines"`; with
zero slabs the `if page_objects:` guard fails and the function returns
`None`. -/
def create_page_lines (w d cover bh pld : ℚ) (count : ℕ) : Option Mesh :=
  let slabs := (List.range count).map
    (fun i => slabMesh i (pageSlab w d cover bh pld count i))
  match slabs with
  | [] => none
  | s :: rest =>
    some { (rest.foldl joinInto s) with name := "PageLines" }

/-! CSG assembler. -/

/-- Per-step diagnostic status of the assembler: `succeeded` when
`modifier_apply` returned normally, `skipped` when it raised and the script
printed the warning and removed the modifier. -/
inductive StepStatus
  | succeeded
  | skipped
deriving DecidableEq, Repr

/-- Embeds the modifier loop of `join_all_parts` (source lines 301-313):
fold the operand list into the accumulating base with the boolean-union
solver.  A `none` from the solver models `modifier_apply` raising: Blender
leaves the base mesh untouched, the script removes the failed modifier and
continues with the next operand. -/
def runPlan (solver : Mesh → Mesh → Option Mesh) (base : Mesh) :
    List Mesh → Mesh × List StepStatus
  | [] => (base, [])
  | op :: rest =>
    match solver base op with
    | some m =>
      let r := runPlan solver m rest
      (r.1, StepStatus.succeeded :: r.2)
    | none =>
      let r := runPlan solver base rest
      (r.1, StepStatus.skipped :: r.2)

/-- Embeds the main-body search of `join_all_parts` (source lines 287-293):
scan the mesh list, remembering the (last) object named `"BookBody"` as
`main` and collecting every other object, in order, into `others`. -/
def findMain (ms : List Mesh) : Option Mesh × List Mesh :=
  ms.foldl
    (fun acc obj =>
      if obj.name = "BookBody" then (some obj, acc.2) else (acc.1, acc.2 ++ [obj]))
    (none, [])

/-- Embeds `join_all_parts` (source lines 275-323).  With fewer than two
mesh objects it returns the sole object (or `None`) without running any
boolean step; otherwise the base is the object named `"BookBody"` if
present, else the first mesh object, and every other object is folded in by
a boolean-union step.  The result is renamed `"BibleKeyring"`.  The returned
status list is the per-step diagnostic sequence (the script's per-step
warnings). -/
def join_all_parts (solver : Mesh → Mesh → Option Mesh) (ms : List Mesh) :
    Option Mesh × List StepStatus :=
  if ms.length < 2 then (ms.head?, [])
  else
    let fm := findMain ms
    let mainOthers :=
      match fm.1 with
      | some m => (m, fm.2)
      | none => (ms.headI, ms.tail)
    let r := runPlan solver mainOthers.1 mainOthers.2
    (some { r.1 with name := "BibleKeyring" }, r.2)

/-! Scene bookkeeping and finishing. -/

/-- Blender scene state as the script sees it: the `"BibleKeyring"`
collection (its object names) when it exists, plus the rest of the scene
data, which the script never touches.  Blender collection names are unique,
so the collection is an optional field. -/
structure Scene where
  bibleKeyring : Option (List String)
  others       : List (String × List String)
deriving DecidableEq, Repr

/-- Embeds `cleanup_existing` (source lines 47-53): if the `"BibleKeyring"`
collection exists, remove all its objects and the collection itself. -/
def cleanup_existing (s : Scene) : Scene :=
  match s.bibleKeyring with
  | some _ => { s with bibleKeyring := none }
  | none => s

/-- Embeds `create_collection` (source lines 56-60): link a fresh empty
`"BibleKeyring"` collection into the scene. -/
def create_collection (s : Scene) : Scene :=
  { s with bibleKeyring := some [] }

/-- Embeds the scene-level effect of `main` (source lines 340-398):
`cleanup_existing`, then `create_collection`, then the build-and-join
pipeline, which deterministically leaves the object list `builtObjs` in the
collection (the pipeline output is a parameter here because glyph meshes
come from an external font collaborator). -/
def main_run (builtObjs : List String) (s : Scene) : Scene :=
  let s1 := cleanup_existing s
  let s2 := create_collection s1
  { s2 with bibleKeyring := some builtObjs }

/-- Blender scene length units (`scene.unit_settings.length_unit` values). -/
inductive LengthUnit
  | METERS
  | MILLIMETERS
  | CENTIMETERS
  | KILOMETERS
  | ADAPTIVE
deriving DecidableEq, Repr

/-- Uniform scale of all vertex coordinates of a mesh (setting
`final.scale = (f, f, f)` then `transform_apply(scale=True)`). -/
def scaleMesh (f : ℚ) (m : Mesh) : Mesh :=
  { m with verts := m.verts.map (fun v => ⟨f * v.x, f * v.y, f * v.z⟩) }

/-- Embeds the finishing rescale of `main` (source lines 384-388): apply the
uniform 0.001 scale to the final mesh only when the scene length unit is
`METERS`; otherwise leave the mesh untouched. -/
def finish_rescale (u : LengthUnit) (m : Mesh) : Mesh :=
  if u = LengthUnit.METERS then scaleMesh 0.001 m else m

/-- Minimum corner of the axis-aligned bounding box of a slab. -/
def slabLo (s : Slab) : Vec3 :=
  ⟨s.center.x - s.extents.x / 2, s.center.y - s.extents.y / 2, s.center.z - s.extents.z / 2⟩

/-- Maximum corner of the axis-aligned bounding box of a slab. -/
def slabHi (s : Slab) : Vec3 :=
  ⟨s.center.x + s.extents.x / 2, s.center.y + s.extents.y / 2, s.center.z + s.extents.z / 2⟩

/-- Empty intersection of the closed bounding boxes of two slabs: strict
separation along at least one coordinate axis. -/
def slabDisjoint (a b : Slab) : Prop :=
  (slabHi a).x < (slabLo b).x ∨ (slabHi b).x < (slabLo a).x ∨
  (slabHi a).y < (slabLo b).y ∨ (slabHi b).y < (slabLo a).y ∨
  (slabHi a).z < (slabLo b).z ∨ (slabHi b).z < (slabLo a).z

/-- Page slab of the configured run (`count = 12` and the script constants). -/
def cfgPageSlab (i : ℕ) : Slab :=
  pageSlab BOOK_WIDTH BOOK_DEPTH COVER_THICKNESS BOOK_HEIGHT PAGE_LINE_DEPTH PAGE_LINE_COUNT i

/-- Closed form of the Z position of text line `i` as `create_embossed_text`
computes it: `start_z - i * line_spacing` with
`line_spacing = size * 1.6` and `start_z = (n - 1) * line_spacing / 2`. -/
def textLineZ (n : ℕ) (size : ℚ) (i : ℕ) : ℚ :=
  ((n : ℚ) - 1) * (size * 1.6) / 2 - (i : ℚ) * (size * 1.6)

/-! Demo inputs used by witnesses. -/

/-- Book-body mesh at the configured dimensions, used as a demo base. -/
def demoBook : Mesh := create_book_body BOOK_WIDTH BOOK_DEPTH BOOK_HEIGHT

/-- Demo operand mesh whose name is not `"BookBody"`. -/
def demoOpA : Mesh := { name := "BookSpine", verts := [⟨0, 0, 0⟩], faces := [] }

/-- Second demo operand mesh whose name is not `"BookBody"`. -/
def demoOpB : Mesh := { name := "PageLines", verts := [⟨1, 0, 0⟩], faces := [] }

/-- Solver that fails on every boolean step (models `modifier_apply`
raising each time). -/
def demoFail : Mesh → Mesh → Option Mesh := fun _ _ => none

/-! Theorems for the claims. -/

/-- Claim C2: the annulus/loop primitive is derived — an outer and an inner
cylinder with inner radius strictly below the outer radius (hypothesis `hr`,
discharged at the configured constants in the witness), the inner depth
strictly above the outer depth, sharing one center, combined by exactly one
boolean Difference (outer minus inner); the inner cylinder sticks out past
both flat ends of the outer one, so the hole fully perforates and no end
faces are coplanar. -/
theorem carabiner_loop_derived_difference (rOut rIn t h : ℚ) (hr : rIn < rOut) :
    (create_carabiner_loop rOut rIn t h).inner.radius
        < (create_carabiner_loop rOut rIn t h).outer.radius ∧
    (create_carabiner_loop rOut rIn t h).outer.depth
        < (create_carabiner_loop rOut rIn t h).inner.depth ∧
    (create_carabiner_loop rOut rIn t h).ops = [BoolMode.difference] ∧
    (create_carabiner_loop rOut rIn t h).inner.center
        = (create_carabiner_loop rOut rIn t h).outer.center ∧
    (create_carabiner_loop rOut rIn t h).inner.center.z
          - (create_carabiner_loop rOut rIn t h).inner.depth / 2
        < (create_carabiner_loop rOut rIn t h).outer.center.z
          - (create_carabiner_loop rOut rIn t h).outer.depth / 2 ∧
    (create_carabiner_loop rOut rIn t h).outer.center.z
          + (create_carabiner_loop rOut rIn t h).outer.depth / 2
        < (create_carabiner_loop rOut rIn t h).inner.center.z
          + (create_carabiner_loop rOut rIn t h).inner.depth / 2 := by
  refine ⟨hr, ?_, rfl, rfl, ?_, ?_⟩
  · show t < t + 2
    linarith
  · show (h / 2 + rOut - 1) - (t + 2) / 2 < (h / 2 + rOut - 1) - t / 2
    linarith
  · show (h / 2 + rOut - 1) + t / 2 < (h / 2 + rOut - 1) + (t + 2) / 2
    linarith

/-- Witness for C2 at the configured constants
`LOOP_OUTER_RADIUS = 4`, `LOOP_INNER_RADIUS = 2.5`, `LOOP_THICKNESS = 3`,
`BOOK_HEIGHT = 38`. -/
theorem carabiner_loop_derived_difference_witness :
    LOOP_INNER_RADIUS < LOOP_OUTER_RADIUS ∧
    ((create_carabiner_loop LOOP_OUTER_RADIUS LOOP_INNER_RADIUS LOOP_THICKNESS BOOK_HEIGHT).inner.radius
        < (create_carabiner_loop LOOP_OUTER_RADIUS LOOP_INNER_RADIUS LOOP_THICKNESS BOOK_HEIGHT).outer.radius ∧
      (create_carabiner_loop LOOP_OUTER_RADIUS LOOP_INNER_RADIUS LOOP_THICKNESS BOOK_HEIGHT).outer.depth
        < (create_carabiner_loop LOOP_OUTER_RADIUS LOOP_INNER_RADIUS LOOP_THICKNESS BOOK_HEIGHT).inner.depth ∧
      (create_carabiner_loop LOOP_OUTER_RADIUS LOOP_INNER_RADIUS LOOP_THICKNESS BOOK_HEIGHT).ops = [BoolMode.difference] ∧
      (create_carabiner_loop LOOP_OUTER_RADIUS LOOP_INNER_RADIUS LOOP_THICKNESS BOOK_HEIGHT).inner.center
        = (create_carabiner_loop LOOP_OUTER_RADIUS LOOP_INNER_RADIUS LOOP_THICKNESS BOOK_HEIGHT).outer.center ∧
      (create_carabiner_loop LOOP_OUTER_RADIUS LOOP_INNER_RADIUS LOOP_THICKNESS BOOK_HEIGHT).inner.center.z
          - (create_carabiner_loop LOOP_OUTER_RADIUS LOOP_INNER_RADIUS LOOP_THICKNESS BOOK_HEIGHT).inner.depth / 2
        < (create_carabiner_loop LOOP_OUTER_RADIUS LOOP_INNER_RADIUS LOOP_THICKNESS BOOK_HEIGHT).outer.center.z
          - (create_carabiner_loop LOOP_OUTER_RADIUS LOOP_INNER_RADIUS LOOP_THICKNESS BOOK_HEIGHT).outer.depth / 2 ∧
      (create_carabiner_loop LOOP_OUTER_RADIUS LOOP_INNER_RADIUS LOOP_THICKNESS BOOK_HEIGHT).outer.center.z
          + (create_carabiner_loop LOOP_OUTER_RADIUS LOOP_INNER_RADIUS LOOP_THICKNESS BOOK_HEIGHT).outer.depth / 2
        < (create_carabiner_loop LOOP_OUTER_RADIUS LOOP_INNER_RADIUS LOOP_THICKNESS BOOK_HEIGHT).inner.center.z
          + (create_carabiner_loop LOOP_OUTER_RADIUS LOOP_INNER_RADIUS LOOP_THICKNESS BOOK_HEIGHT).inner.depth / 2) :=
  ⟨by norm_num [LOOP_INNER_RADIUS, LOOP_OUTER_RADIUS],
   carabiner_loop_derived_difference LOOP_OUTER_RADIUS LOOP_INNER_RADIUS LOOP_THICKNESS BOOK_HEIGHT
     (by norm_num [LOOP_INNER_RADIUS, LOOP_OUTER_RADIUS])⟩

/-- Counterexample for C7: the constructors perform no parameter
validation — called with the non-positive width `-1` (book body) and the
non-positive diameter `-2` (spine), they still produce full primitive
geometry (an 8-vertex, 6-face box; a 32-segment cylinder record of negative
radius) instead of failing with `InvalidParameter`. -/
theorem primitive_constructors_no_rejection :
    (create_book_body (-1) BOOK_DEPTH BOOK_HEIGHT).verts.length = 8 ∧
    (create_book_body (-1) BOOK_DEPTH BOOK_HEIGHT).faces.length = 6 ∧
    (create_spine (-2) BOOK_HEIGHT).radius < 0 ∧
    (create_spine (-2) BOOK_HEIGHT).segments = 32 :=
  ⟨rfl, rfl, by norm_num [create_spine], rfl⟩

/-- Claim C7 (amended): `create_book_body` and `create_spine` are
deterministic pure functions of their numeric parameters that always
produce their primitive geometry (8 box vertices and 6 box faces; a
32-segment cylinder of radius `d / 2` and depth `h`), with no validation
and no error path; the configured constants all lie in the valid domain
(positive dimensions, segment count 32 ≥ 3), so no invalid call occurs in
the run. -/
theorem primitive_constructors_total (w d h : ℚ) :
    (create_book_body w d h).verts.length = 8 ∧
    (create_book_body w d h).faces.length = 6 ∧
    (create_book_body w d h).name = "BookBody" ∧
    create_spine d h
      = { radius := d / 2, depth := h, segments := 32, center := ⟨0, 0, 0⟩ } ∧
    0 < BOOK_WIDTH ∧ 0 < BOOK_DEPTH ∧ 0 < BOOK_HEIGHT ∧
    3 ≤ (create_spine BOOK_DEPTH BOOK_HEIGHT).segments :=
  ⟨rfl, rfl, rfl, rfl, by norm_num [BOOK_WIDTH], by norm_num [BOOK_DEPTH],
   by norm_num [BOOK_HEIGHT], by norm_num [create_spine]⟩

/-- Claim C10: the finishing rescale is conditional — with scene length
unit `METERS` every vertex coordinate of the final mesh is scaled by
0.001, and for any other scene length unit the mesh is returned
untouched. -/
theorem finish_rescale_only_meters :
    (∀ m : Mesh, finish_rescale LengthUnit.METERS m = scaleMesh 0.001 m) ∧
    (∀ (u : LengthUnit) (m : Mesh), u ≠ LengthUnit.METERS → finish_rescale u m = m) := by
  constructor
  · intro m; rfl
  · intro u m hu; simp [finish_rescale, hu]

/-- Witness for C10 at the concrete unit `MILLIMETERS` and the configured
book-body mesh. -/
theorem finish_rescale_only_meters_witness :
    LengthUnit.MILLIMETERS ≠ LengthUnit.METERS ∧
    finish_rescale LengthUnit.MILLIMETERS demoBook = demoBook :=
  ⟨by decide, finish_rescale_only_meters.2 LengthUnit.MILLIMETERS demoBook (by decide)⟩

/-- Claim C9: `cleanup_existing` leaves the scene with no `"BibleKeyring"`
collection (its objects are removed with it) whatever the scene was
before; hence a second `main` run starts, with respect to that collection,
from the same state as the first, and re-running the generator reproduces
exactly the same collection contents instead of accumulating geometry. -/
theorem cleanup_rerun_idempotent (objs : List String) (s : Scene) :
    (cleanup_existing s).bibleKeyring = none ∧
    (cleanup_existing (main_run objs s)).bibleKeyring
        = (cleanup_existing s).bibleKeyring ∧
    main_run objs (main_run objs s) = main_run objs s := by
  refine ⟨?_, ?_, ?_⟩ <;>
    cases h : s.bibleKeyring <;>
      simp [cleanup_existing, main_run, create_collection, h]

/-- Claim C5: with fewer than two mesh objects in the collection (empty
plan / no valid operand), `join_all_parts` runs no boolean step at all and
returns the sole mesh unchanged (or `none` when there is no mesh) together
with an empty step-status sequence; there is no error path. -/
theorem assemble_small_collection (solver : Mesh → Mesh → Option Mesh)
    (ms : List Mesh) (h : ms.length < 2) :
    join_all_parts solver ms = (ms.head?, []) := by
  simp [join_all_parts, h]

/-- Witness for C5: one mesh object (the configured book body), any
solver. -/
theorem assemble_small_collection_witness :
    [demoBook].length < 2 ∧
    join_all_parts demoFail [demoBook] = ([demoBook].head?, []) :=
  ⟨by decide, assemble_small_collection demoFail [demoBook] (by decide)⟩

/-- Counterexample for C6: called with `count = 0`, `create_page_lines`
does not return an empty Solid (a mesh with zero faces) — it returns no
mesh at all (`None`). -/
theorem page_lines_zero_not_empty_solid :
    ¬ ∃ m : Mesh,
        create_page_lines BOOK_WIDTH BOOK_DEPTH COVER_THICKNESS BOOK_HEIGHT
            PAGE_LINE_DEPTH 0 = some m ∧
          m.faces.length = 0 := by
  simp [create_page_lines]

/-- Claim C6 (amended): with `count = 0` the Repeater returns `None` — no
slab object is created or linked, so the Assembler simply never receives
an operand from it (a no-op by absence rather than an empty Solid). -/
theorem page_lines_zero_returns_none (w d cover bh pld : ℚ) :
    create_page_lines w d cover bh pld 0 = none ∧
    (List.range 0).map (fun i => slabMesh i (pageSlab w d cover bh pld 0 i)) = [] := by
  constructor
  · simp [create_page_lines]
  · simp

/-- Helper: the assembler emits exactly one status per boolean step, so a
run is never aborted early by a failure. -/
theorem runPlan_status_length (solver : Mesh → Mesh → Option Mesh) :
    ∀ (ops : List Mesh) (base : Mesh),
      (runPlan solver base ops).2.length = ops.length := by
  intro ops
  induction ops with
  | nil => intro base; rfl
  | cons op rest ih =>
    intro base
    simp only [runPlan]
    cases h : solver base op <;> simp [ih]

/-- Claim C1: when the boolean operation of a step fails, the assembler
discards only that step (the remaining plan is folded from the base exactly
as it was before the failed step), records the step as Skipped at its
position in the status sequence, and still emits one status per step of the
whole plan — a single failure never aborts the run. -/
theorem assembler_failure_isolation (solver : Mesh → Mesh → Option Mesh)
    (base op : Mesh) (rest : List Mesh) (h : solver base op = none) :
    runPlan solver base (op :: rest)
        = ((runPlan solver base rest).1,
           StepStatus.skipped :: (runPlan solver base rest).2) ∧
    (runPlan solver base (op :: rest)).2.length = rest.length + 1 := by
  refine ⟨?_, ?_⟩
  · simp [runPlan, h]
  · simpa using runPlan_status_length solver (op :: rest) base

/-- Witness for C1: a solver that fails on the first step of a two-step
plan over concrete meshes. -/
theorem assembler_failure_isolation_witness :
    demoFail demoBook demoOpA = none ∧
    (runPlan demoFail demoBook (demoOpA :: [demoOpB])
        = ((runPlan demoFail demoBook [demoOpB]).1,
           StepStatus.skipped :: (runPlan demoFail demoBook [demoOpB]).2) ∧
      (runPlan demoFail demoBook (demoOpA :: [demoOpB])).2.length
        = [demoOpB].length + 1) :=
  ⟨rfl, assembler_failure_isolation demoFail demoBook demoOpA [demoOpB] rfl⟩

/-- Helper: when no mesh in the collection is named `"BookBody"`, the main
search of `join_all_parts` finds nothing and collects every mesh, in
order, as an operand candidate. -/
theorem findMain_no_bookbody (ms : List Mesh)
    (hn : ∀ m ∈ ms, m.name ≠ "BookBody") : findMain ms = (none, ms) := by
  have aux : ∀ (l : List Mesh), (∀ m ∈ l, m.name ≠ "BookBody") →
      ∀ acc : List Mesh,
        l.foldl
            (fun acc obj =>
              if obj.name = "BookBody" then (some obj, acc.2) else (acc.1, acc.2 ++ [obj]))
            ((none : Option Mesh), acc)
          = (none, acc ++ l) := by
    intro l
    induction l with
    | nil => intro _ acc; simp
    | cons x xs ih =>
      intro hx acc
      have hxn : x.name ≠ "BookBody" := hx x (List.mem_cons_self x xs)
      simp only [List.foldl_cons, if_neg hxn]
      rw [ih (fun m hm => hx m (List.mem_cons_of_mem x hm)) (acc ++ [x])]
      simp
  simpa [findMain] using aux ms hn []

/-- Claim C8: with at least two meshes none of which is named
`"BookBody"`, `join_all_parts` falls back to the first mesh of the
collection as the accumulating base and unions every remaining mesh into
it, instead of failing. -/
theorem assemble_fallback_first_mesh (solver : Mesh → Mesh → Option Mesh)
    (m0 : Mesh) (rest : List Mesh) (hr : rest ≠ [])
    (hn : ∀ m ∈ m0 :: rest, m.name ≠ "BookBody") :
    join_all_parts solver (m0 :: rest)
        = (some { (runPlan solver m0 rest).1 with name := "BibleKeyring" },
           (runPlan solver m0 rest).2) := by
  have hlen : ¬ (m0 :: rest).length < 2 := by
    cases rest with
    | nil => exact absurd rfl hr
    | cons b bs => simp
  unfold join_all_parts
  rw [if_neg hlen, findMain_no_bookbody (m0 :: rest) hn]
  rfl

/-- Witness for C8: two concrete meshes named `"BookSpine"` and
`"PageLines"` (no `"BookBody"`), with a concrete solver. -/
theorem assemble_fallback_first_mesh_witness :
    ([demoOpB] ≠ ([] : List Mesh)) ∧
    (∀ m ∈ demoOpA :: [demoOpB], m.name ≠ "BookBody") ∧
    join_all_parts demoFail (demoOpA :: [demoOpB])
        = (some { (runPlan demoFail demoOpA [demoOpB]).1 with name := "BibleKeyring" },
           (runPlan demoFail demoOpA [demoOpB]).2) :=
  ⟨by simp, by simp [demoOpA, demoOpB],
   assemble_fallback_first_mesh demoFail demoOpA [demoOpB] (by simp)
     (by simp [demoOpA, demoOpB])⟩

/-- Claim C3: the Repeater computes
`spacing = (spanEnd - spanStart) / (count + 1)` with
`spanStart = -d / 2 + cover` and `spanEnd = d / 2 - cover`, and slab `i`
(1-indexed, `1 ≤ i ≤ count`; the 0-indexed loop builds it at index
`i - 1`) is centered at `spanStart + i * spacing` along Y; all slabs have
identical extents; and in the configured run (`count = 12`, script
constants) the bounding boxes of any two distinct slabs have empty
intersection. -/
theorem repeater_layout (w d cover bh pld : ℚ) (count : ℕ) (i : ℕ)
    (h1 : 1 ≤ i) (h2 : i ≤ count) :
    (pageSlab w d cover bh pld count (i - 1)).center.y
        = (-d / 2 + cover)
          + (i : ℚ) * (((d / 2 - cover) - (-d / 2 + cover)) / ((count : ℚ) + 1)) ∧
    (∀ j k : ℕ, (pageSlab w d cover bh pld count j).extents
        = (pageSlab w d cover bh pld count k).extents) ∧
    (∀ j k : ℕ, j < k → k < PAGE_LINE_COUNT →
      slabDisjoint (cfgPageSlab j) (cfgPageSlab k)) := by
  refine ⟨?_, ?_, ?_⟩
  · show -d / 2 + cover
          + (((i - 1 : ℕ) : ℚ) + 1) * ((d - 2 * cover) / ((count : ℚ) + 1))
        = (-d / 2 + cover)
          + (i : ℚ) * (((d / 2 - cover) - (-d / 2 + cover)) / ((count : ℚ) + 1))
    rw [Nat.cast_sub h1]
    ring
  · intro j k
    rfl
  · intro j k hjk hk
    have hj : (j : ℚ) + 1 ≤ (k : ℚ) := by exact_mod_cast hjk
    refine Or.inr (Or.inr (Or.inl ?_))
    simp only [cfgPageSlab, pageSlab, slabHi, slabLo, PAGE_LINE_COUNT, BOOK_DEPTH,
      COVER_THICKNESS, BOOK_HEIGHT, BOOK_WIDTH, PAGE_LINE_DEPTH]
    norm_num
    linarith

/-- Witness for C3 at the configured run: `count = 12`, slab `i = 1`. -/
theorem repeater_layout_witness :
    1 ≤ 1 ∧ 1 ≤ PAGE_LINE_COUNT ∧
    ((pageSlab BOOK_WIDTH BOOK_DEPTH COVER_THICKNESS BOOK_HEIGHT PAGE_LINE_DEPTH
          PAGE_LINE_COUNT (1 - 1)).center.y
        = (-BOOK_DEPTH / 2 + COVER_THICKNESS)
          + (1 : ℚ) * (((BOOK_DEPTH / 2 - COVER_THICKNESS)
              - (-BOOK_DEPTH / 2 + COVER_THICKNESS)) / ((PAGE_LINE_COUNT : ℚ) + 1)) ∧
      (∀ j k : ℕ,
        (pageSlab BOOK_WIDTH BOOK_DEPTH COVER_THICKNESS BOOK_HEIGHT PAGE_LINE_DEPTH
            PAGE_LINE_COUNT j).extents
          = (pageSlab BOOK_WIDTH BOOK_DEPTH COVER_THICKNESS BOOK_HEIGHT PAGE_LINE_DEPTH
              PAGE_LINE_COUNT k).extents) ∧
      (∀ j k : ℕ, j < k → k < PAGE_LINE_COUNT →
        slabDisjoint (cfgPageSlab j) (cfgPageSlab k))) :=
  ⟨Nat.le_refl 1, by decide,
   repeater_layout BOOK_WIDTH BOOK_DEPTH COVER_THICKNESS BOOK_HEIGHT PAGE_LINE_DEPTH
     PAGE_LINE_COUNT 1 (Nat.le_refl 1) (by decide)⟩

/-- Claim C4: in `create_embossed_text` line `i` of `n` sits at Z position
`textLineZ n size i`; that position is line 0's position minus
`i * lineSpacing` with `lineSpacing = size * 1.6`; line 0 sits at
`+((n - 1) * lineSpacing) / 2`; and the positions are symmetric about the
face origin (`z_i + z_(n-1-i) = 0`), so the vertical midpoint of the stack
is at the origin. -/
theorem text_stack_layout (lines : List String) (size extrude w d : ℚ) (i : ℕ)
    (h : i < lines.length) :
    ((create_embossed_text lines size extrude w d).get? i).map (fun p => p.2.z)
        = some (textLineZ lines.length size i) ∧
    textLineZ lines.length size i
        = textLineZ lines.length size 0 - (i : ℚ) * (size * 1.6) ∧
    textLineZ lines.length size 0 = ((lines.length : ℚ) - 1) * (size * 1.6) / 2 ∧
    textLineZ lines.length size i
        + textLineZ lines.length size (lines.length - 1 - i) = 0 := by
  refine ⟨?_, ?_, ?_, ?_⟩
  · simp only [create_embossed_text, List.get?_map, List.get?_enum,
      List.get?_eq_get h, Option.map_some', Option.some.injEq, textLineZ]
  · simp only [textLineZ]
    ring
  · simp only [textLineZ]
    ring
  · have hn : 1 ≤ lines.length := by omega
    have hi : i ≤ lines.length - 1 := by omega
    simp only [textLineZ]
    rw [Nat.cast_sub hi, Nat.cast_sub hn]
    push_cast
    ring

/-- Witness for C4 at the configured text (`lines = ["I AM", "WHO", "I AM"]`,
`size = TEXT_SIZE`), line `i = 1`. -/
theorem text_stack_layout_witness :
    1 < (["I AM", "WHO", "I AM"] : List String).length ∧
    (((create_embossed_text ["I AM", "WHO", "I AM"] TEXT_SIZE TEXT_EXTRUDE
            BOOK_WIDTH BOOK_DEPTH).get? 1).map (fun p => p.2.z)
        = some (textLineZ (["I AM", "WHO", "I AM"] : List String).length TEXT_SIZE 1) ∧
      textLineZ (["I AM", "WHO", "I AM"] : List String).length TEXT_SIZE 1
        = textLineZ (["I AM", "WHO", "I AM"] : List String).length TEXT_SIZE 0
          - (1 : ℚ) * (TEXT_SIZE * 1.6) ∧
      textLineZ (["I AM", "WHO", "I AM"] : List String).length TEXT_SIZE 0
        = (((["I AM", "WHO", "I AM"] : List String).length : ℚ) - 1)
          * (TEXT_SIZE * 1.6) / 2 ∧
      textLineZ (["I AM", "WHO", "I AM"] : List String).length TEXT_SIZE 1
        + textLineZ (["I AM", "WHO", "I AM"] : List String).length TEXT_SIZE
            ((["I AM", "WHO", "I AM"] : List String).length - 1 - 1) = 0) :=
  ⟨by decide,
   text_stack_layout ["I AM", "WHO", "I AM"] TEXT_SIZE TEXT_EXTRUDE BOOK_WIDTH
     BOOK_DEPTH 1 (by decide)⟩

end BibleKeyring
